import Mathlib

/-!
Verification of the session registry in `src/sessionBrowserContextFactory.ts`
(`SessionBrowserContextFactory`). The TypeScript class wraps a
`BrowserContextFactory` and maintains a `Map<string, ManagedSession>` keyed by
session identifier. We embed the registry state as a Lean structure and each
method as a pure function over it. Asynchronous effects are made explicit:

* the wrapped factory (`_wrappedFactory.createContext`) is a `Provider`
  oracle indexed by a call counter (`provisionCount` counts the calls made);
* a session's `close` teardown callback is an opaque `Nat` token; invoking it
  appends the token to `teardowns`, and its success/failure is an oracle
  `Nat → Bool`;
* `browserContext.on('close', ...)` registrations are recorded in
  `closeHandlers`, and firing one is `fireCloseHandler`;
* timestamps (`new Date()`, `getTime()`) are integer milliseconds passed in
  as `now`.

The JavaScript `Map` is embedded as an association list with insertion-order
semantics: `mapSet` replaces in place, `mapGet` finds the first (unique) key,
`mapDelete` removes the key's entry.
-/

structure ClientInfo where
  name : String
  version : String
deriving DecidableEq, Repr

/-- Result of `_wrappedFactory.createContext`: the browser context handle and
the teardown callback token. -/
structure ProvisionResult where
  browserContext : Nat
  close : Nat
deriving DecidableEq, Repr

/-- The `ManagedSession` interface of the source. -/
structure ManagedSession where
  browserContext : Nat
  close : Nat
  refCount : Int
  sessionId : String
  createdAt : Int
  lastAccessedAt : Int
deriving DecidableEq, Repr

abbrev SessionMap := List (String × ManagedSession)

def mapGet : SessionMap → String → Option ManagedSession
  | [], _ => none
  | (k, v) :: rest, key => if k = key then some v else mapGet rest key

def mapSet : SessionMap → String → ManagedSession → SessionMap
  | [], key, v => [(key, v)]
  | (k, w) :: rest, key, v =>
      if k = key then (k, v) :: rest else (k, w) :: mapSet rest key v

def mapDelete : SessionMap → String → SessionMap
  | [], _ => []
  | (k, w) :: rest, key =>
      if k = key then mapDelete rest key else (k, w) :: mapDelete rest key

/-- The mutable state of a `SessionBrowserContextFactory`, plus the
instrumentation needed to observe its interactions with the environment. -/
structure FactoryState where
  defaultSessionId : String
  sessions : SessionMap
  /-- number of calls made so far into the wrapped factory -/
  provisionCount : Nat
  /-- `(browserContext, sessionId)` pairs registered via `on('close', ...)` -/
  closeHandlers : List (Nat × String)
  /-- teardown callback tokens that have been invoked, in order -/
  teardowns : List Nat
deriving DecidableEq, Repr

/-- The wrapped `BrowserContextFactory.createContext`, as an oracle: given the
client info and the index of the call, it either provisions a context or
fails. -/
abbrev Provider := ClientInfo → Nat → Except String ProvisionResult

/-- What `createContext` returns to its caller: the browser context handle and
the session id that the returned `close` closure will release
(`close: () => this._releaseSession(sessionId)`). -/
structure Acquired where
  browserContext : Nat
  closeTargetSessionId : String
deriving DecidableEq, Repr

/-- `session.refCount++; session.lastAccessedAt = new Date()` -/
def bumpSession (now : Int) (sess : ManagedSession) : ManagedSession :=
  { sess with refCount := sess.refCount + 1, lastAccessedAt := now }

/-- `SessionBrowserContextFactory.createContext` (lines 53-95). -/
def createContext (provider : Provider) (clientInfo : ClientInfo) (now : Int)
    (s : FactoryState) : Except String Acquired × FactoryState :=
  let sessionId := s.defaultSessionId
  match mapGet s.sessions sessionId with
  | some session =>
      let session' := bumpSession now session
      (Except.ok ⟨session'.browserContext, sessionId⟩,
       { s with sessions := mapSet s.sessions sessionId session' })
  | none =>
      match provider clientInfo s.provisionCount with
      | Except.error e =>
          (Except.error e, { s with provisionCount := s.provisionCount + 1 })
      | Except.ok r =>
          let session : ManagedSession :=
            { browserContext := r.browserContext, close := r.close,
              refCount := 0, sessionId := sessionId,
              createdAt := now, lastAccessedAt := now }
          let s1 : FactoryState :=
            { s with
              provisionCount := s.provisionCount + 1,
              sessions := mapSet s.sessions sessionId session,
              closeHandlers := s.closeHandlers ++ [(r.browserContext, sessionId)] }
          let session' := bumpSession now session
          (Except.ok ⟨session'.browserContext, sessionId⟩,
           { s1 with sessions := mapSet s1.sessions sessionId session' })

/-- `SessionBrowserContextFactory._releaseSession` (lines 100-109). -/
def releaseSession (sessionId : String) (s : FactoryState) : FactoryState :=
  match mapGet s.sessions sessionId with
  | none => s
  | some session =>
      let session' : ManagedSession := { session with refCount := session.refCount - 1 }
      { s with sessions := mapSet s.sessions sessionId session' }

/-- `SessionBrowserContextFactory.getOrCreateSession` (lines 114-143). -/
def getOrCreateSession (provider : Provider) (sessionId : String)
    (clientInfo : ClientInfo) (now : Int) (s : FactoryState) :
    Except String Nat × FactoryState :=
  match mapGet s.sessions sessionId with
  | some session =>
      let session' := bumpSession now session
      (Except.ok session'.browserContext,
       { s with sessions := mapSet s.sessions sessionId session' })
  | none =>
      match provider clientInfo s.provisionCount with
      | Except.error e =>
          (Except.error e, { s with provisionCount := s.provisionCount + 1 })
      | Except.ok r =>
          let session : ManagedSession :=
            { browserContext := r.browserContext, close := r.close,
              refCount := 0, sessionId := sessionId,
              createdAt := now, lastAccessedAt := now }
          let s1 : FactoryState :=
            { s with
              provisionCount := s.provisionCount + 1,
              sessions := mapSet s.sessions sessionId session,
              closeHandlers := s.closeHandlers ++ [(r.browserContext, sessionId)] }
          let session' := bumpSession now session
          (Except.ok session'.browserContext,
           { s1 with sessions := mapSet s1.sessions sessionId session' })

/-- `await session.close()` inside a try/catch: the token is invoked and the
oracle says whether it succeeded. -/
def invokeTeardown (teardownOk : Nat → Bool) (tok : Nat) (s : FactoryState) :
    Bool × FactoryState :=
  (teardownOk tok, { s with teardowns := s.teardowns ++ [tok] })

/-- `SessionBrowserContextFactory.closeSession` (lines 145-162): the mapping
entry is deleted before teardown is attempted; a teardown failure yields
`false`. -/
def closeSession (teardownOk : Nat → Bool) (sessionId : String)
    (s : FactoryState) : Bool × FactoryState :=
  match mapGet s.sessions sessionId with
  | none => (false, s)
  | some session =>
      let s1 : FactoryState := { s with sessions := mapDelete s.sessions sessionId }
      invokeTeardown teardownOk session.close s1

/-- `SessionBrowserContextFactory.closeAllSessions` (lines 179-193): every
resident session's teardown is attempted (each in its own try/catch), then the
mapping is cleared unconditionally. -/
def closeAllSessions (teardownOk : Nat → Bool) (s : FactoryState) : FactoryState :=
  let s1 := s.sessions.foldl
    (fun acc p => (invokeTeardown teardownOk p.2.close acc).2) s
  { s1 with sessions := [] }

/-- The selection test of `cleanupOldSessions`:
`session.refCount === 0 && (now - lastAccessedAt) / (1000 * 60) > maxAgeMinutes`. -/
def shouldCleanup (maxAgeMinutes : Rat) (now : Int) (sess : ManagedSession) : Bool :=
  sess.refCount == 0 &&
    decide (((now : Rat) - (sess.lastAccessedAt : Rat)) / (1000 * 60) > maxAgeMinutes)

/-- `SessionBrowserContextFactory.cleanupOldSessions` (lines 195-215): collect
the ids of idle sessions older than the threshold, close each via
`closeSession`, and return how many were selected. -/
def cleanupOldSessions (teardownOk : Nat → Bool) (maxAgeMinutes : Rat)
    (now : Int) (s : FactoryState) : Nat × FactoryState :=
  let sessionsToClose :=
    (s.sessions.filter (fun p => shouldCleanup maxAgeMinutes now p.2)).map Prod.fst
  let s' := sessionsToClose.foldl
    (fun acc sid => (closeSession teardownOk sid acc).2) s
  (sessionsToClose.length, s')

/-- The handler registered at session creation:
`session.browserContext.on('close', () => { this._sessions.delete(sessionId); })`.
Firing it deletes the mapping entry; it invokes no teardown. -/
def fireCloseHandler (sessionId : String) (s : FactoryState) : FactoryState :=
  { s with sessions := mapDelete s.sessions sessionId }

/-- A fresh factory: `new SessionBrowserContextFactory(wrapped)` with the
default `'default'` id. -/
def initState : FactoryState :=
  { defaultSessionId := "default", sessions := [], provisionCount := 0,
    closeHandlers := [], teardowns := [] }

/-- A provider that always succeeds, handing out distinct handles/tokens per
call index. -/
def okProvider : Provider := fun _ n => Except.ok ⟨100 + n, 200 + n⟩

def someClient : ClientInfo := ⟨"client", "1.0"⟩

/-- A teardown oracle under which every teardown succeeds. -/
def tdOkAll : Nat → Bool := fun _ => true

/-! ### Sequential acquire/release traces (claim C1)

An acquire is a call to `createContext`; a release is a call to the `close`
closure that acquire returned, i.e. `_releaseSession(defaultSessionId)`. -/

inductive SessionOp where
  | acquire
  | release
deriving DecidableEq, Repr

def runOp (provider : Provider) (ci : ClientInfo) (now : Int)
    (s : FactoryState) : SessionOp → FactoryState
  | SessionOp.acquire => (createContext provider ci now s).2
  | SessionOp.release => releaseSession s.defaultSessionId s

def runOps (provider : Provider) (ci : ClientInfo) (now : Int)
    (ops : List SessionOp) (s : FactoryState) : FactoryState :=
  ops.foldl (runOp provider ci now) s

/-! ### Interleaved executions of `createContext` (claim C5)

`createContext` is synchronous except for the single `await` on the wrapped
factory's provisioning call, so under the JavaScript event loop it executes as
two atomic segments: (1) the map lookup and, on a miss, the start of the
provisioning call; (2) after the await resolves, building the session record,
inserting it into the map, registering the close handler and bumping the
reference count. `TPhase` is a thread's position between segments and
`stepThread` runs one segment. -/

inductive TPhase where
  /-- the call has not started running yet -/
  | start (ci : ClientInfo)
  /-- suspended at the `await`; the provisioning call has been issued and will
  resolve to `r` -/
  | suspended (r : ProvisionResult)
  /-- the provisioning call rejected -/
  | failed (e : String)
  | finished (a : Acquired)
deriving DecidableEq, Repr

def stepThread (provider : Provider) (now : Int) (s : FactoryState) :
    TPhase → FactoryState × TPhase
  | TPhase.start ci =>
      let sessionId := s.defaultSessionId
      match mapGet s.sessions sessionId with
      | some session =>
          let session' := bumpSession now session
          ({ s with sessions := mapSet s.sessions sessionId session' },
           TPhase.finished ⟨session'.browserContext, sessionId⟩)
      | none =>
          match provider ci s.provisionCount with
          | Except.error e =>
              ({ s with provisionCount := s.provisionCount + 1 }, TPhase.failed e)
          | Except.ok r =>
              ({ s with provisionCount := s.provisionCount + 1 }, TPhase.suspended r)
  | TPhase.suspended r =>
      let sessionId := s.defaultSessionId
      let session : ManagedSession :=
        { browserContext := r.browserContext, close := r.close, refCount := 0,
          sessionId := sessionId, createdAt := now, lastAccessedAt := now }
      let s1 : FactoryState :=
        { s with
          sessions := mapSet s.sessions sessionId session,
          closeHandlers := s.closeHandlers ++ [(r.browserContext, sessionId)] }
      let session' := bumpSession now session
      ({ s1 with sessions := mapSet s1.sessions sessionId session' },
       TPhase.finished ⟨session'.browserContext, sessionId⟩)
  | TPhase.failed e => (s, TPhase.failed e)
  | TPhase.finished a => (s, TPhase.finished a)

/-- Run the threads under a schedule: each entry names the thread that runs
its next atomic segment. -/
def schedule (provider : Provider) (now : Int) :
    List Nat → FactoryState × List TPhase → FactoryState × List TPhase
  | [], st => st
  | i :: rest, (s, threads) =>
      match threads.get? i with
      | none => schedule provider now rest (s, threads)
      | some ph =>
          let (s', ph') := stepThread provider now s ph
          schedule provider now rest (s', threads.set i ph')

/-! ### Association-list map lemmas -/

theorem mapGet_mapSet_self (m : SessionMap) (k : String) (v : ManagedSession) :
    mapGet (mapSet m k v) k = some v := by
  induction m with
  | nil => simp [mapSet, mapGet]
  | cons p rest ih =>
      obtain ⟨a, b⟩ := p
      by_cases ha : a = k
      · simp [mapSet, mapGet, ha]
      · simp [mapSet, mapGet, ha, ih]

theorem mapGet_mapSet_ne (m : SessionMap) (k k' : String) (v : ManagedSession)
    (h : k' ≠ k) : mapGet (mapSet m k v) k' = mapGet m k' := by
  have h2 : ¬ k = k' := fun he => h he.symm
  induction m with
  | nil => simp [mapSet, mapGet, h2]
  | cons p rest ih =>
      obtain ⟨a, b⟩ := p
      by_cases ha : a = k
      · subst ha
        simp [mapSet, mapGet, h2]
      · simp [mapSet, mapGet, ha, ih]

theorem mapGet_mapDelete_self (m : SessionMap) (k : String) :
    mapGet (mapDelete m k) k = none := by
  induction m with
  | nil => simp [mapDelete, mapGet]
  | cons p rest ih =>
      obtain ⟨a, b⟩ := p
      by_cases ha : a = k
      · simp [mapDelete, ha, ih]
      · simp [mapDelete, mapGet, ha, ih]

theorem mapDelete_of_get_none (m : SessionMap) (k : String)
    (h : mapGet m k = none) : mapDelete m k = m := by
  induction m with
  | nil => simp [mapDelete]
  | cons p rest ih =>
      obtain ⟨a, b⟩ := p
      by_cases ha : a = k
      · simp [mapGet, ha] at h
      · simp [mapGet, ha] at h
        simp [mapDelete, ha, ih h]

/-! ### Claim theorems -/

/-- Claim C1 (code bug): the spec says `referenceCount` never goes negative
under any interleaving of acquire/release on one identifier, but
`_releaseSession` decrements unconditionally: after the trace
acquire, release, release on the default identifier the resident session's
`refCount` is `-1`. -/
theorem refCount_negative_after_double_release :
    Option.map ManagedSession.refCount
      (mapGet (runOps okProvider someClient 0
        [SessionOp.acquire, SessionOp.release, SessionOp.release]
        initState).sessions "default") = some (-1) := by
  decide

/-- Session record at reference count zero, and a registry holding it, used to
exercise `_releaseSession` on an already-idle session. -/
def zeroRefSession : ManagedSession :=
  { browserContext := 7, close := 8, refCount := 0, sessionId := "s",
    createdAt := 0, lastAccessedAt := 0 }

def zeroRefState : FactoryState :=
  { initState with sessions := [("s", zeroRefSession)] }

/-- Claim C2 (code bug): releasing an unknown identifier is indeed a no-op,
but releasing a session whose `refCount` is already 0 is not: the state
changes, the count dropping to `-1`, where the spec requires the registry
state to be left unchanged. -/
theorem release_at_zero_mutates_state :
    releaseSession "missing" zeroRefState = zeroRefState ∧
    releaseSession "s" zeroRefState ≠ zeroRefState ∧
    Option.map ManagedSession.refCount
      (mapGet (releaseSession "s" zeroRefState).sessions "s") = some (-1) := by
  refine ⟨by decide, by decide, by decide⟩

/-- The two racing acquirers of the C5 scenario: both start `createContext`
while no session exists. -/
def raceThreads : List TPhase := [TPhase.start someClient, TPhase.start someClient]

/-- The state after the interleaving in which both callers pass the map
lookup before either provisioning call resolves: thread 0 looks up and starts
provisioning, thread 1 does the same, then each resumes. -/
def raceRun : FactoryState :=
  (schedule okProvider 0 [0, 1, 0, 1] (initState, raceThreads)).1

/-- Claim C5 (code bug): `createContext` awaits the wrapped factory before
inserting into the map, so two concurrent first acquires both miss the lookup
and both provision: the run ends with `provisionCount = 2` (the spec demands
exactly one provisioning call) and the single surviving session — the second
insertion overwrote the first — has `refCount = 1`, not the number of
acquirers (2); the first caller holds a context (handle 100) that is no
longer in the mapping. -/
theorem concurrent_first_acquire_double_provisions :
    raceRun.provisionCount = 2 ∧
    raceRun.sessions =
      [("default",
        { browserContext := 101, close := 201, refCount := 1,
          sessionId := "default", createdAt := 0, lastAccessedAt := 0 })] := by
  refine ⟨by decide, by decide⟩

/-- An idle session (refCount 0) whose `lastAccessedAt` equals the current
time, i.e. age exactly 0 ms. -/
def freshIdleSession : ManagedSession :=
  { browserContext := 7, close := 8, refCount := 0, sessionId := "a",
    createdAt := 5, lastAccessedAt := 5 }

def freshIdleState : FactoryState :=
  { initState with sessions := [("a", freshIdleSession)] }

/-- At threshold 0 the selection test reduces to: idle, and last accessed
strictly before the current instant. -/
theorem shouldCleanup_zero (now : Int) (sess : ManagedSession) :
    shouldCleanup 0 now sess =
      (sess.refCount == 0 && decide (sess.lastAccessedAt < now)) := by
  unfold shouldCleanup
  congr 1
  rw [decide_eq_decide]
  rw [gt_iff_lt, lt_div_iff₀ (by norm_num : (0 : Rat) < 1000 * 60), zero_mul,
    sub_pos]
  exact Int.cast_lt

/-- Claim C3 counterexample: `cleanupOldSessions(0)` does not remove every
session with `refCount = 0` regardless of age — the age test is strict
(`age > maxAgeMinutes`), so an idle session whose `lastAccessedAt` equals the
current instant is skipped: nothing is removed and the returned count is 0,
not 1. -/
theorem cleanup_zero_skips_fresh_idle_session :
    cleanupOldSessions tdOkAll 0 5 freshIdleState = (0, freshIdleState) := by
  unfold cleanupOldSessions
  simp only [shouldCleanup_zero]
  decide

/-- Folding the per-session teardown attempts of `closeAllSessions` over any
list touches only `teardowns`, appending every session's close token. -/
theorem foldl_invokeTeardown (ok : Nat → Bool)
    (l : List (String × ManagedSession)) (s : FactoryState) :
    l.foldl (fun acc p => (invokeTeardown ok p.2.close acc).2) s =
      { s with teardowns := s.teardowns ++ l.map (fun p => p.2.close) } := by
  induction l generalizing s with
  | nil => simp
  | cons p rest ih =>
      rw [List.foldl_cons, ih]
      simp [invokeTeardown, List.append_assoc]

/-- Claim C7: `closeAllSessions` invokes the teardown of every resident
session — whatever the success/failure oracle says about each one, so one
failure never suppresses the others — and afterwards the mapping is cleared
unconditionally. -/
theorem closeAllSessions_tears_down_all_and_clears (ok : Nat → Bool)
    (s : FactoryState) :
    closeAllSessions ok s =
      { s with
        sessions := [],
        teardowns := s.teardowns ++ s.sessions.map (fun p => p.2.close) } := by
  unfold closeAllSessions
  rw [foldl_invokeTeardown]

/-- Claim C4: `closeSession` on an unknown identifier returns `false` with the
state untouched; on a resident session the mapping entry is removed before the
teardown attempt and stays removed whatever the teardown outcome, the
session's teardown is invoked exactly once, and the boolean result is the
teardown's outcome — so a teardown failure is reported as `false` while the
entry is already gone. -/
theorem closeSession_contract (ok : Nat → Bool) (sid : String)
    (s : FactoryState) :
    (mapGet s.sessions sid = none → closeSession ok sid s = (false, s)) ∧
    (∀ sess, mapGet s.sessions sid = some sess →
      (closeSession ok sid s).2 =
        { s with
          sessions := mapDelete s.sessions sid,
          teardowns := s.teardowns ++ [sess.close] } ∧
      mapGet (closeSession ok sid s).2.sessions sid = none ∧
      (closeSession ok sid s).1 = ok sess.close) := by
  constructor
  · intro h
    unfold closeSession
    rw [h]
  · intro sess h
    unfold closeSession
    rw [h]
    refine ⟨rfl, ?_, rfl⟩
    show mapGet (mapDelete s.sessions sid) sid = none
    exact mapGet_mapDelete_self s.sessions sid

/-- Registry holding one resident session, used to instantiate the
hypothesis-bearing contracts at a concrete state. -/
def oneSession : ManagedSession :=
  { browserContext := 7, close := 8, refCount := 1, sessionId := "x",
    createdAt := 0, lastAccessedAt := 0 }

def oneSessionState : FactoryState :=
  { initState with sessions := [("x", oneSession)] }

/-- Witness for C4: at a concrete state, closing the unknown id "y" returns
`false` and leaves the state intact, and closing the resident id "x" under a
failing teardown removes the entry, invokes teardown token 8 and returns
`false`. -/
theorem closeSession_contract_witness :
    closeSession (fun _ => false) "y" oneSessionState = (false, oneSessionState) ∧
    (closeSession (fun _ => false) "x" oneSessionState).2 =
      { oneSessionState with
        sessions := mapDelete oneSessionState.sessions "x",
        teardowns := oneSessionState.teardowns ++ [8] } ∧
    (closeSession (fun _ => false) "x" oneSessionState).1 = false := by
  refine ⟨?_, ?_, ?_⟩
  · exact (closeSession_contract (fun _ => false) "y" oneSessionState).1 (by decide)
  · exact ((closeSession_contract (fun _ => false) "x" oneSessionState).2
      oneSession (by decide)).1
  · exact ((closeSession_contract (fun _ => false) "x" oneSessionState).2
      oneSession (by decide)).2.2

/-- A provider whose provisioning call always rejects. -/
def failProvider : Provider := fun _ _ => Except.error "boom"

/-- Claim C6: when the wrapped factory's provisioning call fails on the fresh
path of `createContext` or `getOrCreateSession`, no session is inserted — the
sessions map, close handlers and teardown log are exactly those of the input
state — and the error value reaches the caller unchanged, with no retry (the
call counter advances by exactly one). -/
theorem provisioning_failure_propagates (provider : Provider) (ci : ClientInfo)
    (now : Int) (s : FactoryState) (e : String)
    (hfail : provider ci s.provisionCount = Except.error e) :
    (mapGet s.sessions s.defaultSessionId = none →
      createContext provider ci now s =
        (Except.error e, { s with provisionCount := s.provisionCount + 1 })) ∧
    (∀ sid, mapGet s.sessions sid = none →
      getOrCreateSession provider sid ci now s =
        (Except.error e, { s with provisionCount := s.provisionCount + 1 })) := by
  constructor
  · intro h
    simp only [createContext, h, hfail]
  · intro sid h
    simp only [getOrCreateSession, h, hfail]

/-- Witness for C6: a failing provider on the empty registry leaves the
sessions map empty and surfaces the error from both acquisition paths. -/
theorem provisioning_failure_propagates_witness :
    createContext failProvider someClient 0 initState =
      (Except.error "boom", { initState with provisionCount := 1 }) ∧
    getOrCreateSession failProvider "n" someClient 0 initState =
      (Except.error "boom", { initState with provisionCount := 1 }) := by
  constructor
  · exact (provisioning_failure_propagates failProvider someClient 0 initState
      "boom" rfl).1 (by decide)
  · exact (provisioning_failure_propagates failProvider someClient 0 initState
      "boom" rfl).2 "n" (by decide)

/-- Claim C8: on the fresh-session path both acquisition routes register the
new context's close handler (subscription to the resource's termination
signal) at creation time, and firing that handler deletes the session's
mapping entry — leaving the id unresolvable for future acquires — while
invoking no teardown callback at all. -/
theorem close_signal_contract (provider : Provider) (ci : ClientInfo)
    (now : Int) (s : FactoryState) (r : ProvisionResult)
    (hok : provider ci s.provisionCount = Except.ok r) :
    (mapGet s.sessions s.defaultSessionId = none →
      (createContext provider ci now s).2.closeHandlers =
        s.closeHandlers ++ [(r.browserContext, s.defaultSessionId)]) ∧
    (∀ sid, mapGet s.sessions sid = none →
      (getOrCreateSession provider sid ci now s).2.closeHandlers =
        s.closeHandlers ++ [(r.browserContext, sid)]) ∧
    (∀ sid st, fireCloseHandler sid st =
        { st with sessions := mapDelete st.sessions sid } ∧
      mapGet (fireCloseHandler sid st).sessions sid = none ∧
      (fireCloseHandler sid st).teardowns = st.teardowns) := by
  refine ⟨?_, ?_, ?_⟩
  · intro h
    simp only [createContext, h, hok]
  · intro sid h
    simp only [getOrCreateSession, h, hok]
  · intro sid st
    exact ⟨rfl, mapGet_mapDelete_self st.sessions sid, rfl⟩

/-- Witness for C8: creating the default session on an empty registry records
the handler `(100, "default")`, and firing it on the resulting state removes
the entry without touching the teardown log. -/
theorem close_signal_contract_witness :
    (createContext okProvider someClient 0 initState).2.closeHandlers =
      [(100, "default")] ∧
    mapGet (fireCloseHandler "default"
      (createContext okProvider someClient 0 initState).2).sessions "default" =
      none ∧
    (fireCloseHandler "default"
      (createContext okProvider someClient 0 initState).2).teardowns = [] := by
  refine ⟨?_, ?_, ?_⟩
  · exact (close_signal_contract okProvider someClient 0 initState
      ⟨100, 200⟩ rfl).1 (by decide)
  · exact ((close_signal_contract okProvider someClient 0 initState
      ⟨100, 200⟩ rfl).2.2 "default"
      (createContext okProvider someClient 0 initState).2).2.1
  · exact ((close_signal_contract okProvider someClient 0 initState
      ⟨100, 200⟩ rfl).2.2 "default"
      (createContext okProvider someClient 0 initState).2).2.2

/-- Claim C9: `createContext` always targets the factory's fixed default
identifier: when a default session exists the call's outcome is the same for
any two `clientInfo` arguments (none is consulted, no provisioning happens),
and whatever happens the call never reads or writes a mapping entry other
than the default identifier's. -/
theorem createContext_uses_default_identifier (provider : Provider)
    (ci₁ ci₂ : ClientInfo) (now : Int) (s : FactoryState) :
    (∀ sess, mapGet s.sessions s.defaultSessionId = some sess →
      createContext provider ci₁ now s = createContext provider ci₂ now s ∧
      (createContext provider ci₁ now s).2.provisionCount = s.provisionCount) ∧
    (∀ k, k ≠ s.defaultSessionId →
      mapGet (createContext provider ci₁ now s).2.sessions k =
        mapGet s.sessions k) := by
  constructor
  · intro sess h
    constructor
    · simp only [createContext, h]
    · simp only [createContext, h]
  · intro k hk
    cases hdef : mapGet s.sessions s.defaultSessionId with
    | some sess =>
        simp only [createContext, hdef]
        exact mapGet_mapSet_ne s.sessions s.defaultSessionId k
          (bumpSession now sess) hk
    | none =>
        cases hp : provider ci₁ s.provisionCount with
        | error e => simp only [createContext, hdef, hp]
        | ok r =>
            simp only [createContext, hdef, hp]
            rw [mapGet_mapSet_ne _ _ _ _ hk, mapGet_mapSet_ne _ _ _ _ hk]

/-- Witness for C9: with a resident default session, two different client
infos produce identical results with no provisioning call, and the unrelated
key "other" is untouched. -/
theorem createContext_uses_default_identifier_witness :
    createContext okProvider someClient 0
        { initState with sessions := [("default", oneSession)] } =
      createContext okProvider ⟨"other-client", "2.0"⟩ 0
        { initState with sessions := [("default", oneSession)] } ∧
    (createContext okProvider someClient 0
        { initState with sessions := [("default", oneSession)] }).2.provisionCount = 0 ∧
    mapGet (createContext okProvider someClient 0
        { initState with sessions := [("default", oneSession)] }).2.sessions "other" =
      none := by
  refine ⟨?_, ?_, ?_⟩
  · exact ((createContext_uses_default_identifier okProvider someClient
      ⟨"other-client", "2.0"⟩ 0
      { initState with sessions := [("default", oneSession)] }).1 oneSession
      (by decide)).1
  · exact ((createContext_uses_default_identifier okProvider someClient
      ⟨"other-client", "2.0"⟩ 0
      { initState with sessions := [("default", oneSession)] }).1 oneSession
      (by decide)).2
  · exact (createContext_uses_default_identifier okProvider someClient
      ⟨"other-client", "2.0"⟩ 0
      { initState with sessions := [("default", oneSession)] }).2 "other"
      (by decide)

/-- Claim C10: acquiring an identifier already in the mapping makes no
provisioning call and returns the stored browser context; the only state
change is that session's entry being replaced by `bumpSession` (reference
count incremented, `lastAccessedAt` refreshed — context handle, close token,
`sessionId`, `createdAt` intact), and every other key still resolves as
before. -/
theorem reacquire_frame_conditions (provider : Provider) (ci : ClientInfo)
    (now : Int) (s : FactoryState) :
    (∀ sess, mapGet s.sessions s.defaultSessionId = some sess →
      createContext provider ci now s =
        (Except.ok ⟨sess.browserContext, s.defaultSessionId⟩,
         { s with sessions :=
            mapSet s.sessions s.defaultSessionId (bumpSession now sess) })) ∧
    (∀ sid sess, mapGet s.sessions sid = some sess →
      getOrCreateSession provider sid ci now s =
        (Except.ok sess.browserContext,
         { s with sessions := mapSet s.sessions sid (bumpSession now sess) }) ∧
      mapGet (getOrCreateSession provider sid ci now s).2.sessions sid =
        some (bumpSession now sess) ∧
      (∀ k, k ≠ sid →
        mapGet (getOrCreateSession provider sid ci now s).2.sessions k =
          mapGet s.sessions k)) := by
  constructor
  · intro sess h
    simp only [createContext, h]
    simp [bumpSession]
  · intro sid sess h
    refine ⟨?_, ?_, ?_⟩
    · simp only [getOrCreateSession, h]
      simp [bumpSession]
    · simp only [getOrCreateSession, h]
      exact mapGet_mapSet_self s.sessions sid (bumpSession now sess)
    · intro k hk
      simp only [getOrCreateSession, h]
      exact mapGet_mapSet_ne s.sessions sid k (bumpSession now sess) hk

/-- Witness for C10: re-acquiring the resident session "x" via both paths
returns its stored context handle 7 and leaves everything but its refCount
and access time as it was. -/
theorem reacquire_frame_conditions_witness :
    createContext okProvider someClient 9
        { oneSessionState with defaultSessionId := "x" } =
      (Except.ok ⟨7, "x"⟩,
       { oneSessionState with
         defaultSessionId := "x",
         sessions := mapSet oneSessionState.sessions "x" (bumpSession 9 oneSession) }) ∧
    getOrCreateSession okProvider "x" someClient 9 oneSessionState =
      (Except.ok 7,
       { oneSessionState with
         sessions := mapSet oneSessionState.sessions "x" (bumpSession 9 oneSession) }) ∧
    mapGet (getOrCreateSession okProvider "x" someClient 9
        oneSessionState).2.sessions "other" = none := by
  refine ⟨?_, ?_, ?_⟩
  · exact (reacquire_frame_conditions okProvider someClient 9
      { oneSessionState with defaultSessionId := "x" }).1 oneSession (by decide)
  · exact ((reacquire_frame_conditions okProvider someClient 9
      oneSessionState).2 "x" oneSession (by decide)).1
  · exact ((reacquire_frame_conditions okProvider someClient 9
      oneSessionState).2 "x" oneSession (by decide)).2.2 "other" (by decide)

/-- The sessions-map effect of `closeSession` is deletion of the key, whether
or not the key is present and whatever the teardown outcome. -/
theorem closeSession_sessions (ok : Nat → Bool) (sid : String)
    (s : FactoryState) :
    (closeSession ok sid s).2.sessions = mapDelete s.sessions sid := by
  unfold closeSession
  cases h : mapGet s.sessions sid with
  | none => exact (mapDelete_of_get_none s.sessions sid h).symm
  | some sess => rfl

/-- The close loop of `cleanupOldSessions`, on the sessions map, is iterated
deletion of the selected keys. -/
theorem cleanup_foldl_sessions (ok : Nat → Bool) (ks : List String)
    (s : FactoryState) :
    (ks.foldl (fun acc sid => (closeSession ok sid acc).2) s).sessions =
      ks.foldl mapDelete s.sessions := by
  induction ks generalizing s with
  | nil => rfl
  | cons k ks ih =>
      rw [List.foldl_cons, List.foldl_cons, ih, closeSession_sessions]

theorem mapDelete_eq_filter (m : SessionMap) (k : String) :
    mapDelete m k = m.filter (fun p => decide ¬(p.1 = k)) := by
  induction m with
  | nil => rfl
  | cons p rest ih =>
      obtain ⟨a, b⟩ := p
      by_cases ha : a = k <;> simp [mapDelete, ha, ih]

theorem foldl_mapDelete_eq_filter (ks : List String) (m : SessionMap) :
    ks.foldl mapDelete m = m.filter (fun p => decide (p.1 ∉ ks)) := by
  induction ks generalizing m with
  | nil => simp
  | cons k ks ih =>
      rw [List.foldl_cons, ih, mapDelete_eq_filter, List.filter_filter]
      apply List.filter_congr
      intro p _
      by_cases h1 : p.1 = k
      · simp [h1]
      · by_cases h2 : p.1 ∈ ks <;> simp [h1, h2]

/-- In a map with no duplicate keys, equal keys mean equal entries. -/
theorem key_unique (m : SessionMap) (hnd : (m.map Prod.fst).Nodup)
    {p q : String × ManagedSession} (hp : p ∈ m) (hq : q ∈ m)
    (h : p.1 = q.1) : p = q := by
  induction m with
  | nil => cases hp
  | cons x rest ih =>
      rw [List.map_cons, List.nodup_cons] at hnd
      rcases List.mem_cons.mp hp with hp1 | hp2 <;>
        rcases List.mem_cons.mp hq with hq1 | hq2
      · rw [hp1, hq1]
      · exfalso
        apply hnd.1
        have hx : x.1 = q.1 := by rw [← hp1, h]
        rw [hx]
        exact List.mem_map.mpr ⟨q, hq2, rfl⟩
      · exfalso
        apply hnd.1
        have hx : x.1 = p.1 := by rw [← hq1, ← h]
        rw [hx]
        exact List.mem_map.mpr ⟨p, hp2, rfl⟩
      · exact ih hnd.2 hp2 hq2

/-- With unique keys, an entry's key appears among the keys of the filtered
map exactly when the entry itself passes the filter. -/
theorem mem_filter_keys_iff (f : String × ManagedSession → Bool)
    (m : SessionMap) (hnd : (m.map Prod.fst).Nodup)
    {p : String × ManagedSession} (hp : p ∈ m) :
    p.1 ∈ (m.filter f).map Prod.fst ↔ f p = true := by
  constructor
  · intro h
    obtain ⟨q, hqf, hq1⟩ := List.mem_map.mp h
    have hqm : q ∈ m := List.mem_of_mem_filter hqf
    have hfq : f q = true := List.of_mem_filter hqf
    have : q = p := key_unique m hnd hqm hp hq1
    exact this ▸ hfq
  · intro h
    exact List.mem_map.mpr ⟨p, List.mem_filter.mpr ⟨hp, h⟩, rfl⟩

/-- Claim C3, amended (the age test is strict): over any registry whose keys
are unique, `cleanupOldSessions(0)` removes exactly the sessions with
`refCount = 0` that were last accessed strictly before the current instant —
every other session, in particular every one with `refCount > 0`, keeps its
entry untouched — and it returns the number of sessions it selected for
closure, independent of the teardown success oracle. -/
theorem cleanup_zero_removes_strictly_older_idle (ok : Nat → Bool) (now : Int)
    (s : FactoryState) (hnd : (s.sessions.map Prod.fst).Nodup) :
    (cleanupOldSessions ok 0 now s).1 =
      (s.sessions.filter (fun p =>
        p.2.refCount == 0 && decide (p.2.lastAccessedAt < now))).length ∧
    (cleanupOldSessions ok 0 now s).2.sessions =
      s.sessions.filter (fun p =>
        !(p.2.refCount == 0 && decide (p.2.lastAccessedAt < now))) := by
  unfold cleanupOldSessions
  simp only [shouldCleanup_zero]
  constructor
  · simp
  · rw [cleanup_foldl_sessions, foldl_mapDelete_eq_filter]
    apply List.filter_congr
    intro p hp
    have hmem := mem_filter_keys_iff
      (fun q => q.2.refCount == 0 && decide (q.2.lastAccessedAt < now))
      s.sessions hnd hp
    cases hf : (p.2.refCount == 0 && decide (p.2.lastAccessedAt < now)) with
    | true => simp [hf, hmem.mpr hf]
    | false =>
        have hnot : p.1 ∉ (s.sessions.filter (fun q =>
            q.2.refCount == 0 && decide (q.2.lastAccessedAt < now))).map Prod.fst :=
          fun hin => absurd (hmem.mp hin) (by simp [hf])
        simp [hnot, hf]

/-- Two-session registry: "a" idle since time 5, "b" held with one reference. -/
def mixedState : FactoryState :=
  { initState with
    sessions :=
      [("a", { browserContext := 7, close := 8, refCount := 0, sessionId := "a",
               createdAt := 5, lastAccessedAt := 5 }),
       ("b", { browserContext := 9, close := 10, refCount := 1, sessionId := "b",
               createdAt := 0, lastAccessedAt := 0 })] }

/-- Witness for the amended C3: at time 6 the idle session "a" (age 1 ms) is
selected and removed, the referenced session "b" survives, and the count is
the size of the selected set. -/
theorem cleanup_zero_removes_strictly_older_idle_witness :
    (cleanupOldSessions tdOkAll 0 6 mixedState).1 =
      (mixedState.sessions.filter (fun p =>
        p.2.refCount == 0 && decide (p.2.lastAccessedAt < 6))).length ∧
    (cleanupOldSessions tdOkAll 0 6 mixedState).2.sessions =
      mixedState.sessions.filter (fun p =>
        !(p.2.refCount == 0 && decide (p.2.lastAccessedAt < 6))) := by
  exact cleanup_zero_removes_strictly_older_idle tdOkAll 6 mixedState (by decide)
